import Mathlib

/-!
Shallow embedding of the order validation and execution pipeline of the
`polymarket_execution` package (`config.py` and `trader.py`).

Modelling conventions:
* Python `float` prices/sizes are modelled as `ℚ`; every comparison in the
  source is an exact comparison of decimal literals, which `ℚ` represents
  exactly.
* Python strings are modelled as `List Char`.
* `re.match(r"^[cls]+$", s)` for a character class not containing a newline
  matches iff `s` is a non-empty run of class characters, optionally followed
  by one trailing newline (Python's `$` also matches just before a final
  newline).  `reFullMatchOptNL` captures exactly that semantics.
* `str.replace("0x", "")` removes every non-overlapping occurrence of the
  two-character substring `0x`, scanning left to right (`removeSub0x`).
* Exceptions are modelled with explicit result types; external collaborators
  (the CLOB client) are modelled as behaviour oracles saying whether each
  call raises.
-/

namespace PolymarketExec

/-- Characters accepted by the class `[0-9a-fA-F]`. -/
def isHexChar (c : Char) : Bool :=
  (decide ('0' ≤ c) && decide (c ≤ '9')) ||
  (decide ('a' ≤ c) && decide (c ≤ 'f')) ||
  (decide ('A' ≤ c) && decide (c ≤ 'F'))

/-- Characters accepted by the class `[a-zA-Z0-9_-]`. -/
def isTokenChar (c : Char) : Bool :=
  (decide ('a' ≤ c) && decide (c ≤ 'z')) ||
  (decide ('A' ≤ c) && decide (c ≤ 'Z')) ||
  (decide ('0' ≤ c) && decide (c ≤ '9')) ||
  c == '_' || c == '-'

/-- Semantics of Python `bool(re.match(r"^[cls]+$", s))` for a character
class `p` with `p '\n' = false`: the `$` anchor matches at the end of the
string or just before a newline that ends the string, so the pattern matches
iff the string with any single trailing newline removed is a non-empty run
of class characters. -/
def reFullMatchOptNL (p : Char → Bool) (s : List Char) : Bool :=
  let core := if s.getLast? == some '\n' then s.dropLast else s
  !core.isEmpty && core.all p

/-- Python `s.replace("0x", "")`: remove every non-overlapping occurrence of
the substring `0x`, scanning left to right. -/
def removeSub0x : List Char → List Char
  | [] => []
  | '0' :: 'x' :: rest => removeSub0x rest
  | c :: rest => c :: removeSub0x rest

/-- `PolymarketConfig` (config.py): the fields relevant to validation and
trading.  `private_key`/`proxy_address` are `Option` because the
environment variables may be unset (`None` in the source); an empty string
is falsy in Python and the embedding checks emptiness explicitly where the
source uses truthiness. -/
structure PolymarketConfig where
  chain_id : Int
  private_key : Option (List Char)
  proxy_address : Option (List Char)
  signature_type : Int
  max_order_size : ℚ

/-- `PolymarketConfig.POLYGON_MAINNET`. -/
def POLYGON_MAINNET : Int := 137

/-- `PolymarketConfig.POLYGON_TESTNET`. -/
def POLYGON_TESTNET : Int := 80001

/-- `PolymarketConfig._is_valid_private_key`: reject falsy strings, strip
every `"0x"` substring, then require length 64 and
`re.match(r"^[0-9a-fA-F]+$", clean_key)`. -/
def PolymarketConfig.is_valid_private_key (private_key : List Char) : Bool :=
  if private_key.isEmpty then false
  else
    let clean_key := removeSub0x private_key
    clean_key.length == 64 && reFullMatchOptNL isHexChar clean_key

/-- `PolymarketConfig._is_valid_ethereum_address`: same shape with
length 40. -/
def PolymarketConfig.is_valid_ethereum_address (address : List Char) : Bool :=
  if address.isEmpty then false
  else
    let clean_address := removeSub0x address
    clean_address.length == 40 && reFullMatchOptNL isHexChar clean_address

/-- The distinguishable entries appended to `errors` in
`PolymarketConfig.validate`. -/
inductive ConfigError
  | privateKeyRequired
  | privateKeyInvalidFormat
  | proxyAddressRequired
  | proxyAddressInvalidFormat
  | maxOrderSizeNotPositive
deriving DecidableEq

/-- The `errors` list accumulated by `PolymarketConfig.validate`, in source
order.  Python's `if not self.private_key` is true for `None` and for the
empty string.  The chain-id check only appends to `warnings`, which never
affects the result. -/
def PolymarketConfig.validationErrors (c : PolymarketConfig) : List ConfigError :=
  (match c.private_key with
    | none => [ConfigError.privateKeyRequired]
    | some k =>
      if k.isEmpty then [ConfigError.privateKeyRequired]
      else if PolymarketConfig.is_valid_private_key k then []
      else [ConfigError.privateKeyInvalidFormat]) ++
  (match c.proxy_address with
    | none => [ConfigError.proxyAddressRequired]
    | some a =>
      if a.isEmpty then [ConfigError.proxyAddressRequired]
      else if PolymarketConfig.is_valid_ethereum_address a then []
      else [ConfigError.proxyAddressInvalidFormat]) ++
  (if c.max_order_size ≤ 0 then [ConfigError.maxOrderSizeNotPositive] else [])

/-- `PolymarketConfig.validate`: true iff the `errors` list is empty. -/
def PolymarketConfig.validate (c : PolymarketConfig) : Bool :=
  c.validationErrors.isEmpty

/-- The dictionary returned by `PolymarketConfig.get_trading_limits`. -/
structure TradingLimits where
  max_order_size : ℚ
  min_price : ℚ
  min_order_size : ℚ

/-- `PolymarketConfig.get_trading_limits`: `min_price` and `min_order_size`
are the literals `0.01` and `0.1`. -/
def PolymarketConfig.get_trading_limits (c : PolymarketConfig) : TradingLimits :=
  { max_order_size := c.max_order_size
    min_price := 1/100
    min_order_size := 1/10 }

/-! ## Retry wrapper (`retry_on_failure` in trader.py)

The wrapped operation is modelled as an oracle `f : Nat → Except E A`
giving the outcome of its `i`-th invocation (`.error e` = the call raises
`e`, `.ok a` = the call returns `a`).  The loop `for attempt in
range(max_retries)` returns the first successful value, remembers the last
exception, sleeps between failed attempts (time is not modelled), and after
the loop re-raises the last exception, or raises `RuntimeError` when no
attempt ever ran. -/

/-- Result of calling the wrapper: the wrapped value, a re-raised last
exception, or the `RuntimeError` raised when the loop body never ran. -/
inductive RetryOutcome (E A : Type)
  | ok (a : A)
  | raised (e : E)
  | runtimeError
deriving DecidableEq

/-- The retry loop with `rem` attempts remaining and `last` the last
exception seen; the oracle is shifted by one on each recursive call so that
`f 0` is always the next invocation.  The second component counts how many
times the operation was invoked. -/
def retryAux {E A : Type} (f : Nat → Except E A) :
    Nat → Option E → RetryOutcome E A × Nat
  | 0, last =>
    (match last with
      | some e => RetryOutcome.raised e
      | none => RetryOutcome.runtimeError, 0)
  | rem + 1, _ =>
    match f 0 with
    | Except.ok a => (RetryOutcome.ok a, 1)
    | Except.error e =>
      let r := retryAux (fun i => f (i + 1)) rem (some e)
      (r.1, r.2 + 1)

/-- Calling a function wrapped by `retry_on_failure(max_retries)`:
run the loop with no last exception recorded. -/
def retry_run {E A : Type} (f : Nat → Except E A) (max_retries : Nat) :
    RetryOutcome E A × Nat :=
  retryAux f max_retries none

/-! ## Trader (`trader.py`) -/

/-- The `BUY`/`SELL` side constants. -/
inductive Side
  | BUY
  | SELL
deriving DecidableEq

/-- `PolymarketTrader.MAX_PRICE`. -/
def MAX_PRICE : ℚ := 1

/-- `PolymarketTrader.MIN_PRICE`. -/
def MIN_PRICE : ℚ := 0

/-- The distinguishable `ValidationError` messages raised by
`_validate_order_params`, in source order. -/
inductive ValidationFailure
  | priceNotPositive
  | sizeNotPositive
  | priceBelowMin
  | priceAboveMax
  | sizeBelowMin
  | sizeAboveMax
  | totalCostExceedsLimit
deriving DecidableEq

/-- The mutable attributes of `PolymarketTrader` the pipeline reads:
`_is_initialized`, whether `self.client` is set (`client is not None`),
and `_trading_limits`.  `PolymarketTrader.__init__` stores
`config.get_trading_limits()` and starts with no client,
uninitialized. -/
structure TraderState where
  is_initialized : Bool
  has_client : Bool
  trading_limits : TradingLimits

/-- `PolymarketTrader.__init__`: the state directly after construction. -/
def PolymarketTrader.mk_state (config : PolymarketConfig) : TraderState :=
  { is_initialized := false
    has_client := false
    trading_limits := config.get_trading_limits }

/-- `PolymarketTrader._validate_token_id`: falsy strings are rejected, then
`bool(re.match(r"^[a-zA-Z0-9_-]+$", token_id))`. -/
def validate_token_id (token_id : List Char) : Bool :=
  if token_id.isEmpty then false
  else reFullMatchOptNL isTokenChar token_id

/-- `PolymarketTrader._validate_order_params`: the check ladder, first
failure wins; `none` means no `ValidationError` is raised.  The `side`
argument is accepted but never inspected, as in the source. -/
def validate_order_params (limits : TradingLimits) (price size : ℚ)
    (side : Side) : Option ValidationFailure :=
  if price ≤ 0 then some ValidationFailure.priceNotPositive
  else if size ≤ 0 then some ValidationFailure.sizeNotPositive
  else if price < limits.min_price then some ValidationFailure.priceBelowMin
  else if price > MAX_PRICE then some ValidationFailure.priceAboveMax
  else if size < limits.min_order_size then some ValidationFailure.sizeBelowMin
  else if size > limits.max_order_size then some ValidationFailure.sizeAboveMax
  else if price * size > MAX_PRICE * limits.max_order_size then
    some ValidationFailure.totalCostExceedsLimit
  else
    let _ := side
    none

/-- The `OrderArgs` payload handed to `client.create_order`. -/
structure OrderArgs where
  price : ℚ
  size : ℚ
  side : Side
  token_id : List Char
deriving DecidableEq

/-- Exception kinds that the external CLOB client calls may raise, matching
the `except` clauses of `_place_order`: `PolyApiException` and any other
exception. -/
inductive ClientExc
  | polyApi
  | generic
deriving DecidableEq

/-- Behaviour oracle for the external client inside one `_place_order`
call: whether `create_order` raises on the given payload, and whether
`post_order` raises.  `none` means the call returns normally. -/
structure ClobBehavior where
  create_order_raises : OrderArgs → Option ClientExc
  post_order_raises : Option ClientExc

/-- Calls made to the external client during `_place_order`, in order. -/
inductive TraderEvent
  | createOrderCall (args : OrderArgs)
  | postOrderCall
deriving DecidableEq

/-- Observable outcome of `_place_order`: the precondition raise, or the
boolean returned. -/
inductive PlaceOutcome
  | raisedConnectionError
  | returnedFalse
  | returnedTrue
deriving DecidableEq

/-- `PolymarketTrader._place_order`.  Raises `TradingConnectionError` when
not initialized or no client; then, inside the `try`, validates the token
id (raising `ValidationError`, caught below, on failure), validates the
order parameters, builds `OrderArgs`, calls `create_order`, then
`post_order`; every exception raised inside the `try` is caught and turned
into `False`.  The second component lists the external client calls
made. -/
def place_order (st : TraderState) (beh : ClobBehavior)
    (token_id : List Char) (price size : ℚ) (side : Side) :
    PlaceOutcome × List TraderEvent :=
  if !st.is_initialized || !st.has_client then
    (PlaceOutcome.raisedConnectionError, [])
  else if !validate_token_id token_id then
    (PlaceOutcome.returnedFalse, [])
  else
    match validate_order_params st.trading_limits price size side with
    | some _ => (PlaceOutcome.returnedFalse, [])
    | none =>
      let order_args : OrderArgs :=
        { price := price, size := size, side := side, token_id := token_id }
      match beh.create_order_raises order_args with
      | some _ =>
        (PlaceOutcome.returnedFalse, [TraderEvent.createOrderCall order_args])
      | none =>
        match beh.post_order_raises with
        | some _ =>
          (PlaceOutcome.returnedFalse,
            [TraderEvent.createOrderCall order_args, TraderEvent.postOrderCall])
        | none =>
          (PlaceOutcome.returnedTrue,
            [TraderEvent.createOrderCall order_args, TraderEvent.postOrderCall])

/-- `PolymarketTrader.place_buy_order`: delegates with side `BUY`. -/
def place_buy_order (st : TraderState) (beh : ClobBehavior)
    (token_id : List Char) (price size : ℚ) :
    PlaceOutcome × List TraderEvent :=
  place_order st beh token_id price size Side.BUY

/-- `PolymarketTrader.place_sell_order`: delegates with side `SELL`. -/
def place_sell_order (st : TraderState) (beh : ClobBehavior)
    (token_id : List Char) (price size : ℚ) :
    PlaceOutcome × List TraderEvent :=
  place_order st beh token_id price size Side.SELL

/-! ## Client initialization -/

/-- Where an external call inside one `initialize_client` attempt raises:
the `ClobClient(...)` constructor, `create_or_derive_api_creds()`, or
`set_api_creds(...)`. -/
inductive InitFailPoint
  | clientCtor
  | deriveCreds
  | setCreds
deriving DecidableEq

/-- One attempt of the body of `initialize_client` under external behaviour
`ext` (`none` = every external call succeeds): on success the client is
stored, `_is_initialized` is set and `True` is returned; the blanket
`except Exception` catches any raise, sets `_is_initialized = False` and
returns `False` — the attempt itself never raises.  The client attribute
is already assigned when the failure comes after the constructor. -/
def init_client_attempt (st : TraderState) (ext : Option InitFailPoint) :
    TraderState × Bool :=
  match ext with
  | none => ({ st with has_client := true, is_initialized := true }, true)
  | some InitFailPoint.clientCtor => ({ st with is_initialized := false }, false)
  | some InitFailPoint.deriveCreds =>
    ({ st with has_client := true, is_initialized := false }, false)
  | some InitFailPoint.setCreds =>
    ({ st with has_client := true, is_initialized := false }, false)

/-- `PolymarketTrader.initialize_client`, decorated with
`@retry_on_failure(max_retries=3, delay=1.0)`: the decorated body never
raises (exception type `Empty`), it returns a boolean, so the retry loop
sees a normal return on its very first attempt.  `ext i` is the external
behaviour the `i`-th attempt would observe. -/
def init_client (st : TraderState) (ext : Nat → Option InitFailPoint) :
    RetryOutcome Empty (TraderState × Bool) × Nat :=
  retry_run (fun i => Except.ok (init_client_attempt st (ext i))) 3

/-! ## Order status and cancellation stubs -/

/-- Observable outcome of `get_order_status`: the precondition raise, the
returned dictionary `{"order_id": ..., "status": ...}`, or `None` (the
`except` path, unreachable since nothing in the `try` raises). -/
inductive StatusResult
  | raisedConnectionError
  | returnedDict (order_id status : List Char)
  | returnedNone
deriving DecidableEq

/-- `PolymarketTrader.get_order_status`: raises `TradingConnectionError`
when not ready, otherwise returns the placeholder dictionary
`{"order_id": order_id, "status": "unknown"}`; no external call is
made. -/
def get_order_status (st : TraderState) (order_id : List Char) :
    StatusResult :=
  if !st.is_initialized || !st.has_client then
    StatusResult.raisedConnectionError
  else
    StatusResult.returnedDict order_id ("unknown".data)

/-- Observable outcome of `cancel_order`. -/
inductive CancelResult
  | raisedConnectionError
  | returnedTrue
  | returnedFalse
deriving DecidableEq

/-- `PolymarketTrader.cancel_order`: raises `TradingConnectionError` when
not ready, otherwise returns `True` (the `except`-path `False` is
unreachable since nothing in the `try` raises); no external call is
made. -/
def cancel_order (st : TraderState) (order_id : List Char) : CancelResult :=
  if !st.is_initialized || !st.has_client then
    CancelResult.raisedConnectionError
  else
    let _ := order_id
    CancelResult.returnedTrue

/-! ## Spec-side refinement definition -/

/-- The authentication-secret format as the spec words it: exactly 64
hexadecimal characters, optionally preceded by a `0x` prefix.  Stated from
the spec for comparison with `PolymarketConfig.is_valid_private_key`. -/
def specPrivateKeyFormat (s : List Char) : Bool :=
  (s.length == 64 && s.all isHexChar) ||
  (match s with
    | '0' :: 'x' :: rest => rest.length == 64 && rest.all isHexChar
    | _ => false)

/-! ## Concrete instances for witnesses and counterexamples -/

/-- A well-formed configuration with the default `max_order_size` of
`1000.0`. -/
def sampleConfig : PolymarketConfig :=
  { chain_id := 137
    private_key := some (List.replicate 64 'a')
    proxy_address := some (List.replicate 40 'b')
    signature_type := 1
    max_order_size := 1000 }

/-- A configuration whose `max_order_size` of `0.05` is positive but below
the fixed `min_order_size` of `0.1`. -/
def lowCapConfig : PolymarketConfig :=
  { chain_id := 137
    private_key := some (List.replicate 64 'a')
    proxy_address := some (List.replicate 40 'b')
    signature_type := 1
    max_order_size := 1/20 }

/-- A configuration whose private key is present but malformed. -/
def badKeyConfig : PolymarketConfig :=
  { chain_id := 137
    private_key := some ("zz".data)
    proxy_address := some (List.replicate 40 'b')
    signature_type := 1
    max_order_size := 1000 }

/-- A trader state that has completed initialization. -/
def readyState : TraderState :=
  { is_initialized := true
    has_client := true
    trading_limits := sampleConfig.get_trading_limits }

/-- An external client on which neither `create_order` nor `post_order`
raises. -/
def okBehavior : ClobBehavior :=
  { create_order_raises := fun _ => none
    post_order_raises := none }

/-- 66 characters: 32 `'a'`s, the substring `0x`, then 32 more `'a'`s.  Not
of the form 64-hex-optionally-`0x`-prefixed, yet `replace("0x", "")` turns
it into 64 hex characters. -/
def midKey : List Char :=
  List.replicate 32 'a' ++ "0x".data ++ List.replicate 32 'a'

/-! ## Helper lemmas -/

/-- Characterization of the `^[cls]+$` match when the class rejects the
newline: the string is a non-empty run of class characters, or such a run
followed by one newline. -/
lemma reFullMatchOptNL_iff (p : Char → Bool) (hp : p '\n' = false)
    (l : List Char) :
    reFullMatchOptNL p l = true ↔
      (l ≠ [] ∧ l.all p = true) ∨
      ∃ t, l = t ++ ['\n'] ∧ t ≠ [] ∧ t.all p = true := by
  induction l using List.reverseRecOn with
  | nil => simp [reFullMatchOptNL]
  | append_singleton t a _ =>
    by_cases ha : a = '\n'
    · subst ha
      unfold reFullMatchOptNL
      rw [List.getLast?_concat]
      simp [List.dropLast_concat, hp, List.isEmpty_iff]
    · unfold reFullMatchOptNL
      rw [List.getLast?_concat]
      have hbeq : (some a == some '\n') = false := by
        simp [ha]
      rw [hbeq]
      simp only [if_neg]
      simp [List.isEmpty_iff, ha, List.all_append]
      intro x hx _ _
      exact absurd
        (show a = '\n' by
          have h := congrArg List.getLast? hx
          simpa [List.getLast?_concat] using h) ha

/-- One-step unfolding of the retry loop with at least one attempt left. -/
lemma retryAux_succ {E A : Type} (f : Nat → Except E A) (rem : Nat)
    (last : Option E) :
    retryAux f (rem + 1) last =
      match f 0 with
      | Except.ok a => (RetryOutcome.ok a, 1)
      | Except.error e =>
        ((retryAux (fun i => f (i + 1)) rem (some e)).1,
         (retryAux (fun i => f (i + 1)) rem (some e)).2 + 1) := rfl

/-- If the first `k` invocations raise and invocation `k` succeeds with `v`
while more than `k` attempts remain, the loop returns `v` after `k + 1`
invocations, whatever exception was previously recorded. -/
lemma retryAux_ok_of (k : Nat) :
    ∀ {E A : Type} (f : Nat → Except E A) (rem : Nat) (last : Option E) (v : A),
      k < rem → (∀ i, i < k → ∃ e, f i = Except.error e) →
      f k = Except.ok v →
      retryAux f rem last = (RetryOutcome.ok v, k + 1) := by
  induction k with
  | zero =>
    intro E A f rem last v hk hpre hok
    match rem, hk with
    | rem + 1, _ => simp [retryAux, hok]
  | succ k ih =>
    intro E A f rem last v hk hpre hok
    obtain ⟨e0, he0⟩ := hpre 0 (Nat.succ_pos k)
    match rem, hk with
    | rem + 1, hk =>
      have hrec := ih (fun i => f (i + 1)) rem (some e0)
        v (Nat.lt_of_succ_lt_succ hk)
        (fun i hi => hpre (i + 1) (Nat.succ_lt_succ hi)) hok
      rw [retryAux_succ, he0]
      dsimp only
      rw [hrec]

/-- If every remaining invocation raises, the loop performs all of them and
re-raises the exception of the last one. -/
lemma retryAux_raised_of :
    ∀ (rem : Nat) {E A : Type} (f : Nat → Except E A) (last : Option E) (e : E),
      1 ≤ rem → (∀ i, i < rem → ∃ ei, f i = Except.error ei) →
      f (rem - 1) = Except.error e →
      retryAux f rem last = (RetryOutcome.raised e, rem) := by
  intro rem
  induction rem with
  | zero =>
    intro E A f last e h
    omega
  | succ r ih =>
    intro E A f last e _ hall hlast
    cases r with
    | zero =>
      rw [retryAux_succ, show f 0 = Except.error e from hlast]
      dsimp only
      rw [show retryAux (fun i => f (i + 1)) 0 (some e) =
        (RetryOutcome.raised e, 0) from rfl]
    | succ r' =>
      obtain ⟨e0, he0⟩ := hall 0 (by omega)
      have hrec := ih (fun i => f (i + 1)) (some e0) e (by omega)
        (fun i hi => hall (i + 1) (by omega))
        (by simpa using hlast)
      rw [retryAux_succ, he0]
      dsimp only
      rw [hrec]

/-- `sampleConfig` passes `PolymarketConfig.validate`. -/
lemma sampleConfig_validate : sampleConfig.validate = true := by
  have h1 : PolymarketConfig.is_valid_private_key (List.replicate 64 'a') = true := by
    decide
  have h2 : PolymarketConfig.is_valid_ethereum_address (List.replicate 40 'b') = true := by
    decide
  have h3 : (List.replicate 64 'a').isEmpty = false := by decide
  have h4 : (List.replicate 40 'b').isEmpty = false := by decide
  norm_num [PolymarketConfig.validate, PolymarketConfig.validationErrors,
    sampleConfig, h1, h2, h3, h4]

/-! ## Claims -/

/-- C1 (counterexample): with the limits produced by the configuration
(`max_order_size = 1000`, `min_price = 0.01`, `min_order_size = 0.1`), the
input `price = 0.005`, `size = 1` satisfies every hypothesis of the claim
(`0 < p ≤ 1`, `0.1 ≤ s ≤ m`, `p·s ≤ m`), yet `_validate_order_params`
raises `ValidationError` (price below minimum), so validation does not
succeed for all such inputs. -/
theorem c1_counterexample :
    0 < (1 : ℚ)/200 ∧ (1 : ℚ)/200 ≤ 1 ∧
    (1 : ℚ)/10 ≤ 1 ∧ (1 : ℚ) ≤ sampleConfig.get_trading_limits.max_order_size ∧
    (1 : ℚ)/200 * 1 ≤ sampleConfig.get_trading_limits.max_order_size ∧
    validate_order_params sampleConfig.get_trading_limits (1/200) 1 Side.BUY =
      some ValidationFailure.priceBelowMin := by
  norm_num [validate_order_params, PolymarketConfig.get_trading_limits,
    sampleConfig, MAX_PRICE]

/-- C1 (amended): with the trading limits produced by the configuration
(`max_order_size m`, `min_price 0.01`, `min_order_size 0.1`), for all price
`p` with `0.01 ≤ p ≤ 1.0` (the claim's lower bound `0 < p` strengthened to
the `min_price` bound the code enforces) and all size `s` with
`0.1 ≤ s ≤ m` and `p·s ≤ m`, `_validate_order_params(p, s, side)` raises no
`ValidationError`. -/
theorem c1_validate_order_params_succeeds (c : PolymarketConfig)
    (p s : ℚ) (side : Side)
    (h1 : 1/100 ≤ p) (h2 : p ≤ 1)
    (h3 : 1/10 ≤ s) (h4 : s ≤ c.max_order_size)
    (h5 : p * s ≤ c.max_order_size) :
    validate_order_params c.get_trading_limits p s side = none := by
  simp only [validate_order_params, PolymarketConfig.get_trading_limits,
    MAX_PRICE]
  rw [if_neg (by linarith), if_neg (by linarith), if_neg (by linarith),
    if_neg (by linarith), if_neg (by linarith), if_neg (by linarith),
    if_neg (by simp only [one_mul]; exact not_lt.mpr h5)]

/-- C1 (witness): the amended theorem applied to the scenario price `0.60`,
size `10`, limits from `max_order_size = 1000`. -/
theorem c1_witness :
    validate_order_params sampleConfig.get_trading_limits (3/5) 10 Side.BUY =
      none :=
  c1_validate_order_params_succeeds sampleConfig (3/5) 10 Side.BUY
    (by norm_num) (by norm_num) (by norm_num)
    (by norm_num [sampleConfig]) (by norm_num [sampleConfig])

/-- C3: for every attempt count `N ≥ 1` and every wrapped operation: if the
operation raises on exactly its first `k` invocations (`k < N`) and then
returns `v`, the wrapped call returns `v` after exactly `k + 1`
invocations; if it raises on every invocation, the wrapped call invokes it
exactly `N` times and propagates the exception of the final invocation. -/
theorem c3_retry_on_failure_spec {E A : Type} (N : Nat)
    (f : Nat → Except E A) (hN : 1 ≤ N) :
    (∀ k v, k < N → (∀ i, i < k → ∃ e, f i = Except.error e) →
      f k = Except.ok v →
      retry_run f N = (RetryOutcome.ok v, k + 1)) ∧
    (∀ e, (∀ i, i < N → ∃ ei, f i = Except.error ei) →
      f (N - 1) = Except.error e →
      retry_run f N = (RetryOutcome.raised e, N)) := by
  constructor
  · intro k v hk hpre hok
    exact retryAux_ok_of k f N none v hk hpre hok
  · intro e hall hlast
    exact retryAux_raised_of N f none e hN hall hlast

/-- C3 (witness): an operation failing once then succeeding with `42`, run
with `N = 3`: the wrapper returns `42` after 2 invocations. -/
theorem c3_witness :
    retry_run
      (fun i => if i = 0 then (Except.error 7 : Except Nat Nat)
        else Except.ok 42) 3 =
      (RetryOutcome.ok 42, 2) :=
  (c3_retry_on_failure_spec 3
      (fun i => if i = 0 then (Except.error 7 : Except Nat Nat)
        else Except.ok 42)
      (by norm_num)).1 1 42 (by norm_num)
    (fun i hi => ⟨7, by
      have hi0 : i = 0 := by omega
      simp [hi0]⟩)
    (by simp)

/-- C9: a wrapper instantiated with attempt count 0 never invokes the
underlying operation and raises the `RuntimeError` fallback of
`retry_on_failure` (the loop body never runs, so `last_exception` is still
`None`). -/
theorem c9_retry_zero_attempts {E A : Type} (f : Nat → Except E A) :
    retry_run f 0 = (RetryOutcome.runtimeError, 0) := rfl

/-- C2: in every execution of `_place_order` (hence of `place_buy_order` /
`place_sell_order`), the external signing call `client.create_order` is
reached only if token-id validation and all numeric parameter checks have
passed. -/
theorem c2_validation_before_signing (st : TraderState) (beh : ClobBehavior)
    (token_id : List Char) (price size : ℚ) (side : Side) (args : OrderArgs)
    (h : TraderEvent.createOrderCall args ∈
      (place_order st beh token_id price size side).2) :
    validate_token_id token_id = true ∧
    validate_order_params st.trading_limits price size side = none := by
  unfold place_order at h
  split at h
  · simp at h
  · split at h
    · simp at h
    · next htok =>
      have htok' : validate_token_id token_id = true := by
        revert htok
        cases validate_token_id token_id <;> simp
      split at h
      · simp at h
      · next hv => exact ⟨htok', hv⟩

/-- C2 (witness): with a ready trader, valid token and parameters, the
`create_order` call does appear in the trace and the theorem yields both
validation facts. -/
theorem c2_witness :
    validate_token_id ("token123".data) = true ∧
    validate_order_params readyState.trading_limits (3/5) 10 Side.BUY =
      none := by
  have htok : validate_token_id ("token123".data) = true := by decide
  have hvp : validate_order_params readyState.trading_limits (3/5) 10
      Side.BUY = none := by
    norm_num [readyState, sampleConfig, PolymarketConfig.get_trading_limits,
      validate_order_params, MAX_PRICE]
  exact c2_validation_before_signing readyState okBehavior ("token123".data)
    (3/5) 10 Side.BUY
    { price := 3/5, size := 10, side := Side.BUY, token_id := "token123".data }
    (by
      have hvp' : validate_order_params sampleConfig.get_trading_limits
          (3/5) 10 Side.BUY = none := hvp
      simp [place_order, readyState, okBehavior, htok, hvp'])

/-- C4 (counterexample): with an external behaviour that raises on every
attempt, `initialize_client` invokes its body exactly once — not the 3
times the claim's "repeated up to the maximum attempt count of 3" requires
— because the body's blanket `except` converts the exception to a `False`
return that the retry wrapper treats as success. -/
theorem c4_counterexample :
    (init_client (PolymarketTrader.mk_state sampleConfig)
      (fun _ => some InitFailPoint.clientCtor)).2 = 1 ∧
    (init_client (PolymarketTrader.mk_state sampleConfig)
      (fun _ => some InitFailPoint.clientCtor)).2 ≠ 3 := by
  constructor <;>
    simp [init_client, retry_run, retryAux, init_client_attempt]

/-- C4 (amended): if session construction or credential derivation raises
during an `initialize_client` attempt, the exception is caught inside the
attempt and converted to a `False` return, so the retry wrapper observes a
normal return and the body runs exactly once (it is not retried);
`initialize_client` returns `False`, leaves `_is_initialized = False`, and
does not raise to the caller. -/
theorem c4_init_exception_no_retry (st : TraderState)
    (ext : Nat → Option InitFailPoint) (fp : InitFailPoint)
    (hfp : ext 0 = some fp) :
    init_client st ext =
      (RetryOutcome.ok (init_client_attempt st (some fp)), 1) ∧
    (init_client_attempt st (some fp)).2 = false ∧
    (init_client_attempt st (some fp)).1.is_initialized = false := by
  refine ⟨?_, ?_, ?_⟩
  · simp [init_client, retry_run, retryAux, hfp]
  · cases fp <;> simp [init_client_attempt]
  · cases fp <;> simp [init_client_attempt]

/-- C4 (witness): the amended theorem at a freshly constructed trader whose
credential derivation raises on the first attempt. -/
theorem c4_witness :
    init_client (PolymarketTrader.mk_state sampleConfig)
      (fun _ => some InitFailPoint.deriveCreds) =
      (RetryOutcome.ok (init_client_attempt
        (PolymarketTrader.mk_state sampleConfig)
        (some InitFailPoint.deriveCreds)), 1) ∧
    (init_client_attempt (PolymarketTrader.mk_state sampleConfig)
      (some InitFailPoint.deriveCreds)).2 = false ∧
    (init_client_attempt (PolymarketTrader.mk_state sampleConfig)
      (some InitFailPoint.deriveCreds)).1.is_initialized = false :=
  c4_init_exception_no_retry (PolymarketTrader.mk_state sampleConfig)
    (fun _ => some InitFailPoint.deriveCreds) InitFailPoint.deriveCreds rfl

/-- C5 (counterexample): on a freshly constructed (uninitialized) trader,
`place_buy_order` raises `TradingConnectionError` — it does not return
`False` as the claim states (the external `create_order` is indeed never
invoked). -/
theorem c5_counterexample :
    place_buy_order (PolymarketTrader.mk_state sampleConfig) okBehavior
      ("token123".data) (1/2) 10 =
      (PlaceOutcome.raisedConnectionError, []) ∧
    PlaceOutcome.raisedConnectionError ≠ PlaceOutcome.returnedFalse := by
  constructor
  · simp [place_buy_order, place_order, PolymarketTrader.mk_state]
  · simp

/-- C5 (amended): calling `place_buy_order` or `place_sell_order` while the
engine is not ready (not initialized, or no client) raises
`TradingConnectionError`, and the external `create_order` is never invoked
during that call (the trace of external calls is empty). -/
theorem c5_not_ready_raises (st : TraderState) (beh : ClobBehavior)
    (token_id : List Char) (price size : ℚ)
    (h : st.is_initialized = false ∨ st.has_client = false) :
    place_buy_order st beh token_id price size =
      (PlaceOutcome.raisedConnectionError, []) ∧
    place_sell_order st beh token_id price size =
      (PlaceOutcome.raisedConnectionError, []) := by
  have hc : (!st.is_initialized || !st.has_client) = true := by
    rcases h with h | h <;> simp [h]
  constructor <;>
    simp [place_buy_order, place_sell_order, place_order, hc]

/-- C5 (witness): the amended theorem on a freshly constructed trader. -/
theorem c5_witness :
    place_buy_order (PolymarketTrader.mk_state sampleConfig) okBehavior
      ("token42".data) (1/2) 10 =
      (PlaceOutcome.raisedConnectionError, []) ∧
    place_sell_order (PolymarketTrader.mk_state sampleConfig) okBehavior
      ("token42".data) (1/2) 10 =
      (PlaceOutcome.raisedConnectionError, []) :=
  c5_not_ready_raises (PolymarketTrader.mk_state sampleConfig) okBehavior
    ("token42".data) (1/2) 10 (Or.inl rfl)

/-- C6 (counterexample): the configuration with `max_order_size = 0.05`
passes `PolymarketConfig.validate`, yet the trader constructed from it has
`min_order_size (0.1) > max_order_size (0.05)` — the system does not
refuse to operate on every configuration violating the claimed
invariant. -/
theorem c6_counterexample :
    lowCapConfig.validate = true ∧
    (PolymarketTrader.mk_state lowCapConfig).trading_limits.max_order_size <
      (PolymarketTrader.mk_state lowCapConfig).trading_limits.min_order_size := by
  constructor
  · have h1 : PolymarketConfig.is_valid_private_key
        (List.replicate 64 'a') = true := by decide
    have h2 : PolymarketConfig.is_valid_ethereum_address
        (List.replicate 40 'b') = true := by decide
    have h3 : (List.replicate 64 'a').isEmpty = false := by decide
    have h4 : (List.replicate 40 'b').isEmpty = false := by decide
    norm_num [PolymarketConfig.validate, PolymarketConfig.validationErrors,
      lowCapConfig, h1, h2, h3, h4]
  · norm_num [PolymarketTrader.mk_state, PolymarketConfig.get_trading_limits,
      lowCapConfig]

/-- C6 (amended): after construction the trader's limits are
`min_price = 0.01`, `min_order_size = 0.1` and
`max_order_size = config.max_order_size`, and no operation mutates them.
Validation fails whenever `max_order_size ≤ 0`, so a validated
configuration always yields `max_order_size > 0`; but
`min_order_size ≤ max_order_size` is not enforced — it holds exactly when
`max_order_size ≥ 0.1`, and a validated configuration with
`0 < max_order_size < 0.1` violates it. -/
theorem c6_limits_invariant (c : PolymarketConfig)
    (h : c.validate = true) :
    0 < (PolymarketTrader.mk_state c).trading_limits.max_order_size ∧
    ((PolymarketTrader.mk_state c).trading_limits.min_order_size ≤
        (PolymarketTrader.mk_state c).trading_limits.max_order_size ↔
      1/10 ≤ c.max_order_size) ∧
    ∀ (st : TraderState) (e : Option InitFailPoint),
      (init_client_attempt st e).1.trading_limits = st.trading_limits := by
  have hpos : 0 < c.max_order_size := by
    by_contra hneg
    push_neg at hneg
    unfold PolymarketConfig.validate PolymarketConfig.validationErrors at h
    simp [hneg] at h
  refine ⟨?_, ?_, ?_⟩
  · simpa [PolymarketTrader.mk_state, PolymarketConfig.get_trading_limits]
      using hpos
  · simp [PolymarketTrader.mk_state, PolymarketConfig.get_trading_limits]
  · intro st e
    cases e with
    | none => rfl
    | some fp => cases fp <;> rfl

/-- C6 (witness): the amended theorem at the validated `sampleConfig`
(`max_order_size = 1000`). -/
theorem c6_witness :
    0 < (PolymarketTrader.mk_state sampleConfig).trading_limits.max_order_size ∧
    ((PolymarketTrader.mk_state sampleConfig).trading_limits.min_order_size ≤
        (PolymarketTrader.mk_state sampleConfig).trading_limits.max_order_size ↔
      1/10 ≤ sampleConfig.max_order_size) :=
  ⟨(c6_limits_invariant sampleConfig sampleConfig_validate).1,
   (c6_limits_invariant sampleConfig sampleConfig_validate).2.1⟩

/-- C7 (counterexample): `midKey` (32 `'a'`s, then `0x`, then 32 `'a'`s) is
not 64 hex characters optionally preceded by a `0x` prefix, yet
`_is_valid_private_key` accepts it, because `replace("0x", "")` removes the
interior `0x` occurrence as well. -/
theorem c7_counterexample :
    PolymarketConfig.is_valid_private_key midKey = true ∧
    specPrivateKeyFormat midKey = false := by
  decide

/-- C7 (amended): `_is_valid_private_key` accepts `s` iff `s` is non-empty
and removing every occurrence of the substring `0x` from `s` leaves either
exactly 64 hexadecimal characters, or 63 hexadecimal characters followed by
a single trailing newline (Python's `$` matches before a final newline);
and whenever a present, non-empty secret fails this check, explicit
configuration validation reports a hard error (`validate` returns
false). -/
theorem c7_private_key_format :
    (∀ s : List Char,
      PolymarketConfig.is_valid_private_key s = true ↔
        s ≠ [] ∧
          (((removeSub0x s).length = 64 ∧
              (removeSub0x s).all isHexChar = true) ∨
            ∃ t, removeSub0x s = t ++ ['\n'] ∧ t.length = 63 ∧
              t.all isHexChar = true)) ∧
    (∀ (c : PolymarketConfig) (k : List Char), c.private_key = some k →
      k ≠ [] → PolymarketConfig.is_valid_private_key k = false →
      c.validate = false) := by
  constructor
  · intro s
    unfold PolymarketConfig.is_valid_private_key
    by_cases hs : s.isEmpty
    · have : s = [] := by simpa [List.isEmpty_iff] using hs
      simp [this]
    · rw [if_neg (by simp [hs])]
      have hs' : s ≠ [] := by simpa [List.isEmpty_iff] using hs
      rw [Bool.and_eq_true, beq_iff_eq,
        reFullMatchOptNL_iff isHexChar (by decide)]
      constructor
      · rintro ⟨hlen, ⟨-, hmatch⟩ | ⟨t, ht, -, hall⟩⟩
        · exact ⟨hs', Or.inl ⟨hlen, hmatch⟩⟩
        · refine ⟨hs', Or.inr ⟨t, ht, ?_, hall⟩⟩
          have hl := congrArg List.length ht
          simp [hlen] at hl
          omega
      · rintro ⟨-, ⟨hlen, hall⟩ | ⟨t, ht, htlen, hall⟩⟩
        · refine ⟨hlen, Or.inl ⟨?_, hall⟩⟩
          intro hnil
          rw [hnil] at hlen
          simp at hlen
        · refine ⟨?_, Or.inr ⟨t, ht, ?_, hall⟩⟩
          · rw [ht]
            simp [htlen]
          · intro hnil
            rw [hnil] at htlen
            simp at htlen
  · intro c k hck hkne hkinv
    unfold PolymarketConfig.validate PolymarketConfig.validationErrors
    have hke : k.isEmpty = false := by simpa [List.isEmpty_iff] using hkne
    simp [hck, hke, hkinv]

/-- C7 (witness): the amended theorem accepts a plain 64-hex secret and
reports a hard validation error for the malformed secret `"zz"`. -/
theorem c7_witness :
    PolymarketConfig.is_valid_private_key (List.replicate 64 'a') = true ∧
    badKeyConfig.validate = false := by
  constructor
  · exact (c7_private_key_format.1 (List.replicate 64 'a')).mpr
      ⟨by decide, Or.inl ⟨by decide, by decide⟩⟩
  · exact c7_private_key_format.2 badKeyConfig ("zz".data) rfl (by decide)
      (by decide)

/-- C8: on a ready engine, `get_order_status(order_id)` returns the
non-null dictionary `{"order_id": order_id, "status": "unknown"}` and
`cancel_order(order_id)` returns `True`, for every order id, with no
external venue call (neither embedding takes a client behaviour). -/
theorem c8_stub_operations (st : TraderState) (order_id : List Char)
    (h1 : st.is_initialized = true) (h2 : st.has_client = true) :
    get_order_status st order_id =
      StatusResult.returnedDict order_id ("unknown".data) ∧
    get_order_status st order_id ≠ StatusResult.returnedNone ∧
    cancel_order st order_id = CancelResult.returnedTrue := by
  simp [get_order_status, cancel_order, h1, h2]

/-- C8 (witness): the theorem on a ready trader state with order id
`"ord1"`. -/
theorem c8_witness :
    get_order_status readyState ("ord1".data) =
      StatusResult.returnedDict ("ord1".data) ("unknown".data) ∧
    get_order_status readyState ("ord1".data) ≠ StatusResult.returnedNone ∧
    cancel_order readyState ("ord1".data) = CancelResult.returnedTrue :=
  c8_stub_operations readyState ("ord1".data) rfl rfl

/-- C10: for every non-empty `t` whose characters are all in
`[a-zA-Z0-9_-]`, the token-id validator also accepts `t ++ "\n"` (the
regex `$` anchor matches before a final newline), and such a token id
passes validation inside `_place_order` and flows into the `OrderArgs`
handed to `create_order`. -/
theorem c10_token_id_trailing_newline (t : List Char) (ht : t ≠ [])
    (hall : t.all isTokenChar = true) :
    validate_token_id (t ++ ['\n']) = true ∧
    ∀ (st : TraderState) (beh : ClobBehavior) (p s : ℚ) (side : Side),
      st.is_initialized = true → st.has_client = true →
      validate_order_params st.trading_limits p s side = none →
      TraderEvent.createOrderCall
        { price := p, size := s, side := side, token_id := t ++ ['\n'] } ∈
        (place_order st beh (t ++ ['\n']) p s side).2 := by
  have hv : validate_token_id (t ++ ['\n']) = true := by
    unfold validate_token_id
    rw [if_neg (by simp [List.isEmpty_iff])]
    unfold reFullMatchOptNL
    rw [List.getLast?_concat]
    simp [List.dropLast_concat, List.isEmpty_iff, ht, hall]
  refine ⟨hv, ?_⟩
  intro st beh p s side h1 h2 hvp
  cases hcr : beh.create_order_raises
      { price := p, size := s, side := side, token_id := t ++ ['\n'] } with
  | some e => simp [place_order, h1, h2, hv, hvp, hcr]
  | none =>
    cases hpo : beh.post_order_raises with
    | some e => simp [place_order, h1, h2, hv, hvp, hcr, hpo]
    | none => simp [place_order, h1, h2, hv, hvp, hcr, hpo]

/-- C10 (witness): `"abc\n"` is accepted by the token-id validator. -/
theorem c10_witness : validate_token_id ("abc".data ++ ['\n']) = true :=
  (c10_token_id_trailing_newline ("abc".data) (by decide) (by decide)).1

end PolymarketExec
